import Mathlib

/-!
# SimpleMutex (mongo/util/concurrency/mutex.h)

A shallow embedding of the two build variants of `mongo::SimpleMutex`
(the `_WIN32` class of lines 58-85 and the POSIX class of lines 89-116),
followed by the properties of its lifecycle flag `_destroyed`.

The member functions are embedded as pure functions from the object before
the call to an `Outcome`: the native calls the body issued, in order, and the
object as the body leaves it, or no object when the process was aborted.
-/

namespace mongo

/-- Lifecycle of the opaque native lock object (`CRITICAL_SECTION _cs` on
Windows, `pthread_mutex_t _lock` elsewhere): storage that no native call has
initialised yet, an initialised object, or an object a native destroy call has
released. -/
inductive Handle
  | uninitialized
  | valid
  | released
  deriving DecidableEq, Repr

/-- The native functions the two variants of the class call. -/
inductive NativeCall
  | InitializeCriticalSection
  | DeleteCriticalSection
  | EnterCriticalSection
  | LeaveCriticalSection
  | pthread_mutex_init
  | pthread_mutex_destroy
  | pthread_mutex_lock
  | pthread_mutex_unlock
  deriving DecidableEq, Repr

/-- The platform-independent capability a native function stands for
(section 9 of the specification: create, acquire, release, destroy). -/
inductive Capability
  | create
  | acquire
  | release
  | destroy
  deriving DecidableEq, Repr

/-- Capability implemented by each native function. -/
def NativeCall.capability : NativeCall → Capability
  | .InitializeCriticalSection => .create
  | .DeleteCriticalSection => .destroy
  | .EnterCriticalSection => .acquire
  | .LeaveCriticalSection => .release
  | .pthread_mutex_init => .create
  | .pthread_mutex_destroy => .destroy
  | .pthread_mutex_lock => .acquire
  | .pthread_mutex_unlock => .release

/-- What running one member function produced: the native calls it issued, in
order, and the object as the function left it on return; `result = none` means
the process was aborted inside the function. -/
structure Outcome (σ : Type) where
  trace : List NativeCall
  result : Option σ
  deriving DecidableEq, Repr

/-- A body that returns at once, leaving the object as `s`. -/
def Outcome.ret {σ : Type} (s : σ) : Outcome σ :=
  { trace := [], result := some s }

/-- A body that issues the native call `c`, after which the object is `s`. -/
def Outcome.call {σ : Type} (c : NativeCall) (s : σ) : Outcome σ :=
  { trace := [c], result := some s }

/-- Sequencing of two statements: the second runs on the object the first
left, unless the first aborted the process. -/
def Outcome.andThen {σ : Type} (o : Outcome σ) (f : σ → Outcome σ) : Outcome σ :=
  match o.result with
  | none => o
  | some s => { trace := o.trace ++ (f s).trace, result := (f s).result }

/-- Modelled from the spec: the `verify` macro of mongo/util/assert_util.h,
which is not part of the sources at hand. Section 6 describes the Verifier as
`verifyOrAbort(condition)`, terminating the process when `condition` is false.
The expression under `verify` has been evaluated (its native call is in the
trace) before the process is aborted. -/
def verify {σ : Type} (condition : Bool) (o : Outcome σ) : Outcome σ :=
  if condition then o else { trace := o.trace, result := none }

/-- The three operations that act on a constructed instance. -/
inductive Op
  | lock
  | unlock
  | destruct
  deriving DecidableEq, Repr

/-- What the environment contributes to one operation: the value of
`StaticObserver::_destroyingStatics` the destructor reads (declared in
mongo/util/static_observer.h, taken as an input here), and the return code of
the native call the operation issues, if it issues one (only the pthread
functions return a code; the critical-section functions return `void`). -/
structure Env where
  destroyingStatics : Bool
  rc : Int
  deriving DecidableEq, Repr

/-- Runs a script of operations from the object `m` with the given step
function, one outcome per operation, stopping after an operation that aborted
the process. -/
def runFrom {σ : Type} (step : σ → Op → Env → Outcome σ) : σ → List (Op × Env) → List (Outcome σ)
  | _, [] => []
  | m, (op, e) :: rest =>
    match (step m op e).result with
    | none => [step m op e]
    | some m' => step m op e :: runFrom step m' rest

/-- The objects left by the operations of a run that returned, in order. -/
def statesOf {σ : Type} (os : List (Outcome σ)) : List σ :=
  os.filterMap (fun o => o.result)

/-- All native calls of a run, in the order issued. -/
def traceOf {σ : Type} (os : List (Outcome σ)) : List NativeCall :=
  (os.map (fun o => o.trace)).flatten

/-! ## The `_WIN32` variant (mutex.h lines 58-85) -/

namespace Win32

/-- Modelled from the spec: the native function is not repository code; it
initialises the critical section and returns `void`. -/
def InitializeCriticalSection (_cs : Handle) : Handle := Handle.valid

/-- Modelled from the spec: the native function is not repository code; it
releases the critical section and returns `void`. -/
def DeleteCriticalSection (_cs : Handle) : Handle := Handle.released

/-- Modelled from the spec: the native function is not repository code;
acquiring ownership does not change the lifecycle of the handle. -/
def EnterCriticalSection (cs : Handle) : Handle := cs

/-- Modelled from the spec: the native function is not repository code;
releasing ownership does not change the lifecycle of the handle. -/
def LeaveCriticalSection (cs : Handle) : Handle := cs

/-- Data members of the class (lines 83-84). -/
structure SimpleMutex where
  _cs : Handle
  _destroyed : Bool
  deriving DecidableEq, Repr

/-- Storage of an instance before its constructor body runs: the handle is
not initialised, and `_destroyed` has its default member initialiser
`false` (line 84). -/
def SimpleMutex.storage : SimpleMutex :=
  { _cs := Handle.uninitialized, _destroyed := false }

/-- The constructor `SimpleMutex()` (lines 62-64). -/
def SimpleMutex.construct : Outcome SimpleMutex :=
  Outcome.call NativeCall.InitializeCriticalSection
    { SimpleMutex.storage with _cs := InitializeCriticalSection SimpleMutex.storage._cs }

/-- The destructor `~SimpleMutex()` (lines 66-71). -/
def SimpleMutex.destruct (destroyingStatics : Bool) (m : SimpleMutex) : Outcome SimpleMutex :=
  (if !destroyingStatics then
    Outcome.call NativeCall.DeleteCriticalSection { m with _cs := DeleteCriticalSection m._cs }
  else
    Outcome.ret m).andThen
  fun m1 => Outcome.ret { m1 with _destroyed := true }

/-- The member `lock()` (lines 73-76). -/
def SimpleMutex.lock (m : SimpleMutex) : Outcome SimpleMutex :=
  if !m._destroyed then
    Outcome.call NativeCall.EnterCriticalSection { m with _cs := EnterCriticalSection m._cs }
  else
    Outcome.ret m

/-- The member `unlock()` (lines 77-80). -/
def SimpleMutex.unlock (m : SimpleMutex) : Outcome SimpleMutex :=
  if !m._destroyed then
    Outcome.call NativeCall.LeaveCriticalSection { m with _cs := LeaveCriticalSection m._cs }
  else
    Outcome.ret m

/-- One operation on an instance. The return code of the environment is not
consulted: the critical-section functions return `void`. -/
def step (m : SimpleMutex) (op : Op) (e : Env) : Outcome SimpleMutex :=
  match op with
  | Op.lock => m.lock
  | Op.unlock => m.unlock
  | Op.destruct => m.destruct e.destroyingStatics

/-- Construction followed by a script of operations: one outcome for the
constructor and one per operation run. -/
def program (script : List (Op × Env)) : List (Outcome SimpleMutex) :=
  match SimpleMutex.construct.result with
  | none => [SimpleMutex.construct]
  | some m => SimpleMutex.construct :: runFrom step m script

end Win32

/-! ## The POSIX variant (mutex.h lines 89-116) -/

namespace Posix

/-- Modelled from the spec: the native function is not repository code; with
return code `0` it has initialised the mutex, otherwise the handle is as it
was. -/
def pthread_mutex_init (rc : Int) (lk : Handle) : Handle :=
  if rc = 0 then Handle.valid else lk

/-- Modelled from the spec: the native function is not repository code; with
return code `0` it has released the mutex, otherwise the handle is as it
was. -/
def pthread_mutex_destroy (rc : Int) (lk : Handle) : Handle :=
  if rc = 0 then Handle.released else lk

/-- Modelled from the spec: the native function is not repository code;
acquiring ownership does not change the lifecycle of the handle. -/
def pthread_mutex_lock (_rc : Int) (lk : Handle) : Handle := lk

/-- Modelled from the spec: the native function is not repository code;
releasing ownership does not change the lifecycle of the handle. -/
def pthread_mutex_unlock (_rc : Int) (lk : Handle) : Handle := lk

/-- Data members of the class (lines 114-115). -/
structure SimpleMutex where
  _lock : Handle
  _destroyed : Bool
  deriving DecidableEq, Repr

/-- Storage of an instance before its constructor body runs: the handle is
not initialised, and `_destroyed` has its default member initialiser
`false` (line 115). -/
def SimpleMutex.storage : SimpleMutex :=
  { _lock := Handle.uninitialized, _destroyed := false }

/-- The constructor `SimpleMutex()` (lines 93-95); `rc` is what
`pthread_mutex_init` returns. -/
def SimpleMutex.construct (rc : Int) : Outcome SimpleMutex :=
  verify (rc == 0)
    (Outcome.call NativeCall.pthread_mutex_init
      { SimpleMutex.storage with _lock := pthread_mutex_init rc SimpleMutex.storage._lock })

/-- The destructor `~SimpleMutex()` (lines 97-101); `rc` is what
`pthread_mutex_destroy` returns. The body has no statement after the `if`. -/
def SimpleMutex.destruct (destroyingStatics : Bool) (rc : Int) (m : SimpleMutex) :
    Outcome SimpleMutex :=
  if !destroyingStatics then
    verify (rc == 0)
      (Outcome.call NativeCall.pthread_mutex_destroy
        { m with _lock := pthread_mutex_destroy rc m._lock })
  else
    Outcome.ret m

/-- The member `lock()` (lines 103-106); `rc` is what `pthread_mutex_lock`
returns. -/
def SimpleMutex.lock (rc : Int) (m : SimpleMutex) : Outcome SimpleMutex :=
  if !m._destroyed then
    verify (rc == 0)
      (Outcome.call NativeCall.pthread_mutex_lock { m with _lock := pthread_mutex_lock rc m._lock })
  else
    Outcome.ret m

/-- The member `unlock()` (lines 108-111); `rc` is what `pthread_mutex_unlock`
returns. -/
def SimpleMutex.unlock (rc : Int) (m : SimpleMutex) : Outcome SimpleMutex :=
  if !m._destroyed then
    verify (rc == 0)
      (Outcome.call NativeCall.pthread_mutex_unlock
        { m with _lock := pthread_mutex_unlock rc m._lock })
  else
    Outcome.ret m

/-- One operation on an instance. -/
def step (m : SimpleMutex) (op : Op) (e : Env) : Outcome SimpleMutex :=
  match op with
  | Op.lock => m.lock e.rc
  | Op.unlock => m.unlock e.rc
  | Op.destruct => m.destruct e.destroyingStatics e.rc

/-- Construction (with `rc` returned by `pthread_mutex_init`) followed by a
script of operations: one outcome for the constructor and one per operation
run. -/
def program (rc : Int) (script : List (Op × Env)) : List (Outcome SimpleMutex) :=
  match (SimpleMutex.construct rc).result with
  | none => [SimpleMutex.construct rc]
  | some m => SimpleMutex.construct rc :: runFrom step m script

end Posix

/-- An environment in which teardown is not in progress and the native call
succeeds. -/
def Env.quiet : Env := { destroyingStatics := false, rc := 0 }

/-- An environment in which static teardown is in progress and the native call
succeeds. -/
def Env.teardown : Env := { destroyingStatics := true, rc := 0 }

/-! ## Runs of a step function -/

section Runs

variable {σ : Type} (step : σ → Op → Env → Outcome σ)

theorem statesOf_cons_some (o : Outcome σ) (os : List (Outcome σ)) (s : σ)
    (h : o.result = some s) : statesOf (o :: os) = s :: statesOf os := by
  simp [statesOf, List.filterMap_cons, h]

theorem statesOf_cons_none (o : Outcome σ) (os : List (Outcome σ))
    (h : o.result = none) : statesOf (o :: os) = statesOf os := by
  simp [statesOf, List.filterMap_cons, h]

theorem statesOf_runFrom_cons_some (m m1 : σ) (op : Op) (e : Env) (rest : List (Op × Env))
    (h : (step m op e).result = some m1) :
    statesOf (runFrom step m ((op, e) :: rest)) = m1 :: statesOf (runFrom step m1 rest) := by
  simp only [runFrom, h]
  exact statesOf_cons_some _ _ _ h

theorem statesOf_runFrom_cons_none (m : σ) (op : Op) (e : Env) (rest : List (Op × Env))
    (h : (step m op e).result = none) :
    statesOf (runFrom step m ((op, e) :: rest)) = [] := by
  simp only [runFrom, h]
  rw [statesOf_cons_none _ _ h]
  rfl

/-- A property kept by every returning operation holds of every object a run
leaves. -/
theorem runFrom_invariant (Inv : σ → Prop)
    (hstep : ∀ m op e m1, Inv m → (step m op e).result = some m1 → Inv m1) :
    ∀ (script : List (Op × Env)) (m : σ), Inv m →
      ∀ s ∈ statesOf (runFrom step m script), Inv s := by
  intro script
  induction script with
  | nil => intro m _ s hs; simp [runFrom, statesOf] at hs
  | cons hd rest ih =>
    intro m hm s hs
    obtain ⟨op, e⟩ := hd
    cases hres : (step m op e).result with
    | none =>
      rw [statesOf_runFrom_cons_none step m op e rest hres] at hs
      simp at hs
    | some m1 =>
      rw [statesOf_runFrom_cons_some step m m1 op e rest hres] at hs
      have hm1 : Inv m1 := hstep m op e m1 hm hres
      rcases List.mem_cons.mp hs with h | h
      · rw [h]; exact hm1
      · exact ih m1 hm1 s h

/-- When no returning operation clears a flag, its values along a run are a
block of `false` followed by a block of `true`. -/
theorem runFrom_flag_shape (flag : σ → Bool)
    (hmono : ∀ m op e m1, flag m = true → (step m op e).result = some m1 → flag m1 = true) :
    ∀ (script : List (Op × Env)) (m : σ),
      ∃ a b, (statesOf (runFrom step m script)).map flag
        = List.replicate a false ++ List.replicate b true := by
  intro script
  induction script with
  | nil => intro m; exact ⟨0, 0, by simp [runFrom, statesOf]⟩
  | cons hd rest ih =>
    intro m
    obtain ⟨op, e⟩ := hd
    cases hres : (step m op e).result with
    | none =>
      rw [statesOf_runFrom_cons_none step m op e rest hres]
      exact ⟨0, 0, by simp⟩
    | some m1 =>
      rw [statesOf_runFrom_cons_some step m m1 op e rest hres]
      cases hf : flag m1 with
      | false =>
        obtain ⟨a, b, hab⟩ := ih m1
        refine ⟨a + 1, b, ?_⟩
        simp [List.replicate_succ, hf, hab]
      | true =>
        refine ⟨0, (statesOf (runFrom step m1 rest)).length + 1, ?_⟩
        have hall : ∀ s ∈ statesOf (runFrom step m1 rest), flag s = true :=
          runFrom_invariant step (fun s => flag s = true) hmono rest m1 hf
        have hrest : (statesOf (runFrom step m1 rest)).map flag
            = List.replicate (statesOf (runFrom step m1 rest)).length true := by
          apply List.eq_replicate_iff.mpr
          refine ⟨by simp, ?_⟩
          intro x hx
          obtain ⟨s, hs, rfl⟩ := List.mem_map.mp hx
          exact hall s hs
        simp [List.replicate_succ, hf, hrest]

end Runs

/-! ## One operation at a time -/

theorem Win32.step_result (m : Win32.SimpleMutex) (op : Op) (e : Env) :
    (Win32.step m op e).result = some m ∨
      ∃ cs, (Win32.step m op e).result = some { _cs := cs, _destroyed := true } := by
  obtain ⟨cs, d⟩ := m
  obtain ⟨ts, rc⟩ := e
  cases op <;> cases d <;> cases ts <;>
    simp [Win32.step, Win32.SimpleMutex.lock, Win32.SimpleMutex.unlock,
      Win32.SimpleMutex.destruct, Outcome.call, Outcome.ret, Outcome.andThen,
      Win32.EnterCriticalSection, Win32.LeaveCriticalSection]

theorem Win32.step_destroyed_mono (m : Win32.SimpleMutex) (op : Op) (e : Env)
    (m1 : Win32.SimpleMutex) (hd : m._destroyed = true)
    (h : (Win32.step m op e).result = some m1) : m1._destroyed = true := by
  rcases Win32.step_result m op e with h1 | ⟨cs, h1⟩
  · rw [h1] at h; cases h; exact hd
  · rw [h1] at h; cases h; rfl

theorem verify_result {σ : Type} (c : Bool) (o : Outcome σ) (s : σ)
    (h : (verify c o).result = some s) : o.result = some s := by
  cases c <;> simp [verify] at h
  exact h

theorem verify_trace {σ : Type} (c : Bool) (o : Outcome σ) :
    (verify c o).trace = o.trace := by
  cases c <;> rfl

theorem Posix.step_destroyed_same (m : Posix.SimpleMutex) (op : Op) (e : Env)
    (m1 : Posix.SimpleMutex) (h : (Posix.step m op e).result = some m1) :
    m1._destroyed = m._destroyed := by
  obtain ⟨lk, d⟩ := m
  obtain ⟨ts, rc⟩ := e
  cases op <;> cases d <;> cases ts <;>
    simp only [Posix.step, Posix.SimpleMutex.lock, Posix.SimpleMutex.unlock,
      Posix.SimpleMutex.destruct, Outcome.ret, Bool.not_true, Bool.not_false,
      if_true, if_false, Bool.false_eq_true] at h <;>
    first
      | (cases h; rfl)
      | (have h2 := verify_result _ _ _ h
         simp only [Outcome.call] at h2
         cases h2; rfl)

/-! ## The destructor and the flag -/

/-- The `_WIN32` destructor always returns and leaves `_destroyed` set, with
or without static teardown in progress. -/
theorem Win32.destruct_sets_destroyed (ts : Bool) (m : Win32.SimpleMutex) :
    ∃ cs, (m.destruct ts).result = some { _cs := cs, _destroyed := true } := by
  cases ts <;>
    simp [Win32.SimpleMutex.destruct, Outcome.call, Outcome.ret, Outcome.andThen]

/-- C1, evaluated on the POSIX destructor: run on a freshly constructed
instance with every native call succeeding, the destructor returns with
`_destroyed` still `false`, both when static teardown is not in progress (the
handle has been released) and when it is (the handle is untouched). -/
theorem C1_posix_destruct_leaves_destroyed_false :
    (Posix.SimpleMutex.construct 0).result = some { _lock := Handle.valid, _destroyed := false } ∧
    (Posix.SimpleMutex.destruct false 0 { _lock := Handle.valid, _destroyed := false }).result
      = some { _lock := Handle.released, _destroyed := false } ∧
    (Posix.SimpleMutex.destruct true 0 { _lock := Handle.valid, _destroyed := false }).result
      = some { _lock := Handle.valid, _destroyed := false } := by
  decide

/-- C2, evaluated on the POSIX variant: after construction and destruction
with teardown not in progress, `lock()` issues `pthread_mutex_lock` and
`unlock()` issues `pthread_mutex_unlock` on the released handle, whereas the
`_WIN32` variant issues no native call in the same two operations. -/
theorem C2_posix_lock_unlock_after_destruct_call_native :
    (Posix.program 0 [(Op.destruct, Env.quiet), (Op.lock, Env.quiet), (Op.unlock, Env.quiet)]).map
        (fun o => o.trace)
      = [[NativeCall.pthread_mutex_init], [NativeCall.pthread_mutex_destroy],
          [NativeCall.pthread_mutex_lock], [NativeCall.pthread_mutex_unlock]] ∧
    (Win32.program [(Op.destruct, Env.quiet), (Op.lock, Env.quiet), (Op.unlock, Env.quiet)]).map
        (fun o => o.trace)
      = [[NativeCall.InitializeCriticalSection], [NativeCall.DeleteCriticalSection], [], []] := by
  decide

/-- C3: on an instance whose `_destroyed` is `true`, `lock()` and `unlock()`
issue no native call, do not abort, and return the object unchanged (handle
and flag), in the `_WIN32` variant and, for every return code the
environment could supply, in the POSIX variant. -/
theorem C3_destroyed_lock_unlock_are_noops :
    (∀ m : Win32.SimpleMutex, m._destroyed = true →
      m.lock = { trace := [], result := some m } ∧
      m.unlock = { trace := [], result := some m }) ∧
    (∀ (m : Posix.SimpleMutex) (rc : Int), m._destroyed = true →
      m.lock rc = { trace := [], result := some m } ∧
      m.unlock rc = { trace := [], result := some m }) := by
  constructor
  · intro m hd
    simp [Win32.SimpleMutex.lock, Win32.SimpleMutex.unlock, hd, Outcome.ret]
  · intro m rc hd
    simp [Posix.SimpleMutex.lock, Posix.SimpleMutex.unlock, hd, Outcome.ret]

/-- Witness of C3 on a destroyed instance of each variant. -/
theorem C3_destroyed_lock_unlock_are_noops_witness :
    (Win32.SimpleMutex.lock { _cs := Handle.released, _destroyed := true }
        = { trace := [], result := some { _cs := Handle.released, _destroyed := true } } ∧
      Win32.SimpleMutex.unlock { _cs := Handle.released, _destroyed := true }
        = { trace := [], result := some { _cs := Handle.released, _destroyed := true } }) ∧
    (Posix.SimpleMutex.lock 22 { _lock := Handle.released, _destroyed := true }
        = { trace := [], result := some { _lock := Handle.released, _destroyed := true } } ∧
      Posix.SimpleMutex.unlock 22 { _lock := Handle.released, _destroyed := true }
        = { trace := [], result := some { _lock := Handle.released, _destroyed := true } }) :=
  ⟨C3_destroyed_lock_unlock_are_noops.1 { _cs := Handle.released, _destroyed := true } rfl,
   C3_destroyed_lock_unlock_are_noops.2 { _lock := Handle.released, _destroyed := true } 22 rfl⟩

/-- C4: the destructor issues exactly the native destroy call
(`DeleteCriticalSection`, `pthread_mutex_destroy`) when static teardown is
not in progress and no native call at all when it is, on every instance (a
live one in particular) and, in the POSIX variant, whatever the call returns;
so the number of destroy calls it makes is 1 exactly when teardown is not in
progress and 0 otherwise. -/
theorem C4_destruct_native_destroy_count :
    (∀ (m : Win32.SimpleMutex) (ts : Bool),
      (m.destruct ts).trace = (if ts then [] else [NativeCall.DeleteCriticalSection]) ∧
      ((m.destruct ts).trace.map NativeCall.capability).count Capability.destroy
        = (if ts then 0 else 1) ∧
      (((m.destruct ts).trace.map NativeCall.capability).count Capability.destroy = 1
        ↔ ts = false)) ∧
    (∀ (m : Posix.SimpleMutex) (ts : Bool) (rc : Int),
      (m.destruct ts rc).trace = (if ts then [] else [NativeCall.pthread_mutex_destroy]) ∧
      ((m.destruct ts rc).trace.map NativeCall.capability).count Capability.destroy
        = (if ts then 0 else 1) ∧
      (((m.destruct ts rc).trace.map NativeCall.capability).count Capability.destroy = 1
        ↔ ts = false)) := by
  constructor
  · intro m ts
    cases ts <;>
      simp [Win32.SimpleMutex.destruct, Outcome.call, Outcome.ret, Outcome.andThen,
        NativeCall.capability]
  · intro m ts rc
    cases ts <;>
      simp [Posix.SimpleMutex.destruct, verify_trace, Outcome.call, Outcome.ret,
        NativeCall.capability]

/-- C5: on an instance whose `_destroyed` is `false`, `lock()` issues exactly
one native acquire call and `unlock()` exactly one native release call. In the
POSIX variant each aborts the process exactly when the return code of that
call is not `0`, and with return code `0` returns the same object, whose flag
is still `false`. In the `_WIN32` variant the native functions return `void`,
no failure can be reported, and both operations return the same object. -/
theorem C5_live_lock_unlock :
    (∀ (m : Posix.SimpleMutex) (rc : Int), m._destroyed = false →
      ((m.lock rc).trace = [NativeCall.pthread_mutex_lock] ∧
        ((m.lock rc).result = none ↔ rc ≠ 0) ∧
        (rc = 0 → (m.lock rc).result = some m)) ∧
      ((m.unlock rc).trace = [NativeCall.pthread_mutex_unlock] ∧
        ((m.unlock rc).result = none ↔ rc ≠ 0) ∧
        (rc = 0 → (m.unlock rc).result = some m))) ∧
    (∀ m : Win32.SimpleMutex, m._destroyed = false →
      m.lock = { trace := [NativeCall.EnterCriticalSection], result := some m } ∧
      m.unlock = { trace := [NativeCall.LeaveCriticalSection], result := some m }) := by
  constructor
  · intro m rc hd
    obtain ⟨lk, d⟩ := m
    simp only at hd
    subst hd
    by_cases hrc : rc = 0
    · simp [Posix.SimpleMutex.lock, Posix.SimpleMutex.unlock, hrc, verify, Outcome.call,
        Posix.pthread_mutex_lock, Posix.pthread_mutex_unlock]
    · simp [Posix.SimpleMutex.lock, Posix.SimpleMutex.unlock, hrc, verify, Outcome.call,
        Posix.pthread_mutex_lock, Posix.pthread_mutex_unlock]
  · intro m hd
    obtain ⟨cs, d⟩ := m
    simp only at hd
    subst hd
    simp [Win32.SimpleMutex.lock, Win32.SimpleMutex.unlock, Outcome.call,
      Win32.EnterCriticalSection, Win32.LeaveCriticalSection]

/-- Witness of C5 on a live instance: with return code `0` both operations
return, and with return code `16` (`EBUSY`) `lock()` aborts the process. -/
theorem C5_live_lock_unlock_witness :
    (((Posix.SimpleMutex.lock 0 { _lock := Handle.valid, _destroyed := false }).result
        = some { _lock := Handle.valid, _destroyed := false }) ∧
      ((Posix.SimpleMutex.unlock 0 { _lock := Handle.valid, _destroyed := false }).result
        = some { _lock := Handle.valid, _destroyed := false })) ∧
    (Posix.SimpleMutex.lock 16 { _lock := Handle.valid, _destroyed := false }).result = none ∧
    (Win32.SimpleMutex.lock { _cs := Handle.valid, _destroyed := false }
        = { trace := [NativeCall.EnterCriticalSection],
            result := some { _cs := Handle.valid, _destroyed := false } }) :=
  ⟨⟨(C5_live_lock_unlock.1 { _lock := Handle.valid, _destroyed := false } 0 rfl).1.2.2 rfl,
    (C5_live_lock_unlock.1 { _lock := Handle.valid, _destroyed := false } 0 rfl).2.2.2 rfl⟩,
   (C5_live_lock_unlock.1 { _lock := Handle.valid, _destroyed := false } 16 rfl).1.2.1.mpr
     (by decide),
   (C5_live_lock_unlock.2 { _cs := Handle.valid, _destroyed := false } rfl).1⟩

/-! ## Construction -/

/-- C6: the constructor issues exactly one native initialise call. In the
POSIX variant it aborts the process, leaving no instance, exactly when
`pthread_mutex_init` returns a code other than `0`, and otherwise returns the
live instance: handle initialised, `_destroyed` false. In the `_WIN32`
variant `InitializeCriticalSection` returns `void` and the constructor always
returns the live instance. -/
theorem C6_construct_live_or_abort :
    (∀ rc : Int,
      (Posix.SimpleMutex.construct rc).trace = [NativeCall.pthread_mutex_init] ∧
      ((Posix.SimpleMutex.construct rc).result = none ↔ rc ≠ 0) ∧
      ((Posix.SimpleMutex.construct rc).result
          = some { _lock := Handle.valid, _destroyed := false } ↔ rc = 0) ∧
      (∀ m, (Posix.SimpleMutex.construct rc).result = some m →
        m._destroyed = false ∧ m._lock = Handle.valid)) ∧
    Win32.SimpleMutex.construct
      = { trace := [NativeCall.InitializeCriticalSection],
          result := some { _cs := Handle.valid, _destroyed := false } } := by
  constructor
  · intro rc
    by_cases hrc : rc = 0
    · subst hrc
      refine ⟨by decide, by decide, by decide, ?_⟩
      intro m hm
      have h0 : (Posix.SimpleMutex.construct 0).result
          = some { _lock := Handle.valid, _destroyed := false } := by decide
      rw [h0] at hm
      cases hm
      exact ⟨rfl, rfl⟩
    · simp [Posix.SimpleMutex.construct, verify, Outcome.call, hrc]
  · decide

/-- Witness of C6: construction with return code `0` yields the live
instance, construction with return code `12` (`ENOMEM`) yields none. -/
theorem C6_construct_live_or_abort_witness :
    (Posix.SimpleMutex.construct 0).result
        = some { _lock := Handle.valid, _destroyed := false } ∧
    (Posix.SimpleMutex.construct 12).result = none :=
  ⟨(C6_construct_live_or_abort.1 0).2.2.1.mpr rfl,
   (C6_construct_live_or_abort.1 12).2.1.mpr (by decide)⟩

/-! ## The flag along runs -/

/-- C7: no operation that returns clears `_destroyed` (if it is `true`
before `lock`, `unlock` or the destructor, it is `true` after), in both
variants, for every object, environment flag and return code; and along
every run of operations on a freshly constructed instance the values of the
flag are a block of `false` followed by a block of `true`: it changes at
most once, from `false` to `true`, and never back. -/
theorem C7_destroyed_monotone :
    (∀ (m : Win32.SimpleMutex) (op : Op) (e : Env) (m1 : Win32.SimpleMutex),
      (Win32.step m op e).result = some m1 → m._destroyed = true → m1._destroyed = true) ∧
    (∀ (m : Posix.SimpleMutex) (op : Op) (e : Env) (m1 : Posix.SimpleMutex),
      (Posix.step m op e).result = some m1 → m._destroyed = true → m1._destroyed = true) ∧
    (∀ script : List (Op × Env), ∃ a b,
      (statesOf (Win32.program script)).map (fun m => m._destroyed)
        = List.replicate a false ++ List.replicate b true) ∧
    (∀ (rc : Int) (script : List (Op × Env)), ∃ a b,
      (statesOf (Posix.program rc script)).map (fun m => m._destroyed)
        = List.replicate a false ++ List.replicate b true) := by
  have hw : ∀ (m : Win32.SimpleMutex) (op : Op) (e : Env) (m1 : Win32.SimpleMutex),
      m._destroyed = true → (Win32.step m op e).result = some m1 → m1._destroyed = true :=
    fun m op e m1 hd h => Win32.step_destroyed_mono m op e m1 hd h
  have hp : ∀ (m : Posix.SimpleMutex) (op : Op) (e : Env) (m1 : Posix.SimpleMutex),
      m._destroyed = true → (Posix.step m op e).result = some m1 → m1._destroyed = true :=
    fun m op e m1 hd h => (Posix.step_destroyed_same m op e m1 h).trans hd
  refine ⟨fun m op e m1 h hd => hw m op e m1 hd h, fun m op e m1 h hd => hp m op e m1 hd h,
    ?_, ?_⟩
  · intro script
    have hc : Win32.SimpleMutex.construct.result
        = some { _cs := Handle.valid, _destroyed := false } := by decide
    obtain ⟨a, b, hab⟩ := runFrom_flag_shape Win32.step (fun m => m._destroyed) hw script
      { _cs := Handle.valid, _destroyed := false }
    refine ⟨a + 1, b, ?_⟩
    simp only [Win32.program, hc]
    rw [statesOf_cons_some _ _ _ hc]
    simp [List.replicate_succ, hab]
  · intro rc script
    by_cases hrc : rc = 0
    · subst hrc
      have hc : (Posix.SimpleMutex.construct 0).result
          = some { _lock := Handle.valid, _destroyed := false } := by decide
      obtain ⟨a, b, hab⟩ := runFrom_flag_shape Posix.step (fun m => m._destroyed) hp script
        { _lock := Handle.valid, _destroyed := false }
      refine ⟨a + 1, b, ?_⟩
      simp only [Posix.program, hc]
      rw [statesOf_cons_some _ _ _ hc]
      simp [List.replicate_succ, hab]
    · have hc : (Posix.SimpleMutex.construct rc).result = none := by
        simp [Posix.SimpleMutex.construct, verify, hrc]
      refine ⟨0, 0, ?_⟩
      simp only [Posix.program, hc]
      rw [statesOf_cons_none _ _ hc]
      simp [statesOf]

/-- Witness of C7: the `_WIN32` destructor run a second time, on an already
destroyed instance, leaves the flag `true`. -/
theorem C7_destroyed_monotone_witness :
    (Win32.step { _cs := Handle.released, _destroyed := true } Op.destruct Env.teardown).result
        = some { _cs := Handle.released, _destroyed := true } ∧
    (Win32.SimpleMutex.mk Handle.released true)._destroyed = true :=
  ⟨by decide,
   C7_destroyed_monotone.1 { _cs := Handle.released, _destroyed := true } Op.destruct
     Env.teardown { _cs := Handle.released, _destroyed := true } (by decide) rfl⟩

/-! ## Validity of the handle while the flag is clear -/

/-- In the `_WIN32` variant every object left by a run on a freshly
constructed instance has a valid handle as long as `_destroyed` is `false`:
the destructor, the only operation that releases the handle, sets the flag. -/
theorem Win32.live_handle_valid (script : List (Op × Env)) :
    ∀ m ∈ statesOf (Win32.program script), m._destroyed = false → m._cs = Handle.valid := by
  have hc : Win32.SimpleMutex.construct.result
      = some { _cs := Handle.valid, _destroyed := false } := by decide
  have hstep : ∀ (m : Win32.SimpleMutex) (op : Op) (e : Env) (m1 : Win32.SimpleMutex),
      (m._destroyed = false → m._cs = Handle.valid) → (Win32.step m op e).result = some m1 →
      (m1._destroyed = false → m1._cs = Handle.valid) := by
    intro m op e m1 hinv h
    rcases Win32.step_result m op e with h1 | ⟨cs, h1⟩
    · rw [h1] at h; cases h; exact hinv
    · rw [h1] at h; cases h; intro hf; cases hf
  intro m hm
  simp only [Win32.program, hc] at hm
  rw [statesOf_cons_some _ _ _ hc] at hm
  rcases List.mem_cons.mp hm with h | h
  · rw [h]; intro _; rfl
  · exact runFrom_invariant Win32.step (fun s => s._destroyed = false → s._cs = Handle.valid)
      hstep script { _cs := Handle.valid, _destroyed := false } (fun _ => rfl) m h

/-- C8, evaluated on the POSIX variant: successful construction followed by
the destructor with teardown not in progress (and `pthread_mutex_destroy`
succeeding) reaches an object whose `_destroyed` is `false` while its handle
has been released. -/
theorem C8_posix_released_handle_with_flag_clear :
    statesOf (Posix.program 0 [(Op.destruct, Env.quiet)])
      = [{ _lock := Handle.valid, _destroyed := false },
         { _lock := Handle.released, _destroyed := false }] := by
  decide

/-! ## The two variants side by side -/

/-- C10, evaluated on construct, destruct, lock with every native call
succeeding and teardown not in progress: after the destructor the
`_WIN32` flag is `true` and the POSIX flag is `false`, and the following
`lock()` adds an acquire call to the POSIX trace only. -/
theorem C10_variants_differ_after_destruct :
    (statesOf (Win32.program [(Op.destruct, Env.quiet), (Op.lock, Env.quiet)])).map
        (fun m => m._destroyed) = [false, true, true] ∧
    (statesOf (Posix.program 0 [(Op.destruct, Env.quiet), (Op.lock, Env.quiet)])).map
        (fun m => m._destroyed) = [false, false, false] ∧
    (traceOf (Win32.program [(Op.destruct, Env.quiet), (Op.lock, Env.quiet)])).map
        NativeCall.capability = [Capability.create, Capability.destroy] ∧
    (traceOf (Posix.program 0 [(Op.destruct, Env.quiet), (Op.lock, Env.quiet)])).map
        NativeCall.capability = [Capability.create, Capability.destroy, Capability.acquire] := by
  decide

end mongo
